import Mathlib

/-!
Shallow embedding of the Footlocker checkout scripts: the data model and the
operations of footlocker_checkout.py (classes FootlockerCheckout and
ImprovedFootlockerCheckout), enhanced_checkout.py (EnhancedFootlockerCheckout),
order_placer.py (FootlockerOrderPlacer), adyen_encryption.py
(MockAdyenEncryption) and the constants of config.py that those operations
read.  Each HTTP call a method performs is abstracted by an environment value
of type HttpResult describing what the exchange produced; the methods
themselves are translated as pure functions of their object state and those
exchange outcomes.  Request payloads (sku, size, contact, shipping, payment
fields) shape only the outbound bodies, which the environment answers, so
they appear as parameters only where they influence control flow.
-/

/-- Outcome of one HTTP exchange as the Python code observes it: a response
carrying a status code and a body — the body is given parsed (some) when
response.json() would succeed and as none when parsing it would raise — or an
exception raised by the request call itself (timeout, connection reset and the
like), which every method catches in its try/except wrapper. -/
inductive HttpResult (α : Type) where
  | resp (status : Nat) (body : Option α)
  | fault (msg : String)
deriving DecidableEq

/-- The HTTP status carried by an exchange outcome; none for a raised
transport exception. -/
def statusOf {α : Type} : HttpResult α → Option Nat
  | .resp s _ => some s
  | .fault _ => none

/-- One entry of the variantOptions.size list of a product payload: the
scripts read size.get("id") (required, a missing key would raise and be
caught) and size.get("stock", 0). -/
structure SizeOption where
  id : String
  stock : Nat
deriving DecidableEq

/-- The fields of a product-details JSON body that the scripts read:
product_data.get("name") and product_data.get("variantOptions", \x7b\x7d).get("size", []). -/
structure ProductData where
  name : Option String
  sizes : List SizeOption
deriving DecidableEq

/-- The user object of a cart payload; the scripts read user_info.get("id"). -/
structure UserObj where
  id : Option String
deriving DecidableEq

/-- The fields of a cart JSON body that the scripts read: cart_data.get("cartId")
and cart_data.get("user", \x7b\x7d).  The embedding identifies a body with these two
fields; the cart endpoints of the captured API return non-empty objects, so a
parsed body is treated as truthy by the callers that test it. -/
structure CartData where
  cartId : Option String
  user : Option UserObj
deriving DecidableEq

/-- cart_data.get("user", \x7b\x7d).get("id"): none when the user object or its id
field is absent. -/
def userGetId (c : CartData) : Option String :=
  match c.user with
  | some u => u.id
  | none => none

/-- The field of an order-confirmation body that the scripts read:
order_data.get("orderId"). -/
structure OrderData where
  orderId : Option String
deriving DecidableEq

/-- The mutable identifier attributes self.cart_id and self.guest_id shared by
the checkout classes (both start as None in __init__). -/
structure SessionIds where
  cart_id : Option String
  guest_id : Option String
deriving DecidableEq, Inhabited

/-- The user_info dict of order_placer.py (contact details). -/
structure UserInfo where
  firstName : Option String
  lastName : Option String
  email : Option String
  phone : Option String
  phoneCountry : Option String
deriving DecidableEq, Inhabited

/-- The caller-supplied shipping_address dict handed to
verify_shipping_address (raw, unverified input). -/
structure AddressInput where
  country : Option String
  state : Option String
  address1 : Option String
  address2 : Option String
  zipCode : Option String
  city : Option String
deriving DecidableEq, Inhabited

/-- The payment_info dict; its fields shape only the (placeholder) payment
payload. -/
structure PaymentInfo where
  paymentType : Option String
  cardNumber : Option String
  expiryMonth : Option String
  expiryYear : Option String
  cvv : Option String
  nameOnCard : Option String
deriving DecidableEq, Inhabited

/-- The shipping-info record of config.py (all keys present there). -/
structure ShippingInfo where
  firstName : String
  lastName : String
  address1 : String
  address2 : String
  city : String
  state : String
  zipCode : String
  country : String
  phone : String
  email : String
deriving DecidableEq

/-- The fresh random draws one _get_tracking_headers call makes in
enhanced_checkout.py: 32 hex characters for the trace id, 16 for the span id,
8 and 12 for the two random segments of the request id. -/
structure TrackRand where
  trace_id : String
  span_id : String
  req_a : String
  req_b : String
deriving DecidableEq

/-- The dict handed to json.dumps for the newrelic header in
enhanced_checkout.py, modeled structurally (json.dumps is injective on it);
the constant fields v, ty, ac, ap and tk are elided. -/
structure NewRelicPayload where
  spanId : String
  traceId : String
  ti : Nat
deriving DecidableEq

/-- The per-call tracking headers built by
EnhancedFootlockerCheckout._get_tracking_headers; the constant fields
x-kpsdk-v and priority are elided. -/
structure TrackingHeaders where
  newrelic : NewRelicPayload
  traceparent : String
  tracestate : String
  x_fl_request_id : String
deriving DecidableEq

/-- The tracking headers of ImprovedFootlockerCheckout._get_tracking_headers,
whose values are string constants; the remaining constant fields (priority,
referer, sec-ch-ua, x-kpsdk-ct, x-kpsdk-v) are likewise constants and elided. -/
structure ImpTrackingHeaders where
  newrelic : String
  traceparent : String
  tracestate : String
deriving DecidableEq

/-- Final outcome of an orchestrated flow: overall success, or the run aborted
at its first failing step k — the scripts return False and log which step
failed ("Failed at Step k: ..."). -/
inductive OrderOutcome where
  | success
  | failedAtStep (k : Nat)
deriving DecidableEq

/-- Whether an outcome is the overall success (the Boolean the flow methods
return). -/
def isSuccessOutcome : OrderOutcome → Bool
  | .success => true
  | .failedAtStep _ => false

/-- The orchestrator transition rule as the spec words it (section 4.4):
starting from invoked stages so far, advance to the next stage only when the
current stage succeeds; on the first failure stop immediately with that
failure; reach the completed outcome exactly when every stage succeeded.
Returns the final outcome and how many stages were invoked.  This is the
spec-side definition a flow is compared against. -/
def specFailFastRun : List Bool → Nat → OrderOutcome × Nat
  | [], invoked => (OrderOutcome.success, invoked)
  | b :: rest, invoked =>
      if b then specFailFastRun rest (invoked + 1)
      else (OrderOutcome.failedAtStep (invoked + 1), invoked + 1)

/-- Tags for the upstream endpoints a method may hit, used to count the
network exchanges one invocation performs. -/
inductive Endpoint where
  | homepage
  | productDetails
  | cartAdd
  | getUpdatedCartEp
  | shippingSubmit
  | paymentSubmit
  | placeOrderEp
  | userInfoEp
  | addressVerificationEp
  | cartAddressEp
deriving DecidableEq

namespace config

/-- One entry of config.PRODUCTS; the price field (a float) is elided, it is
never read by the checkout flows. -/
structure ConfigProduct where
  sku : String
  pname : String
  available_sizes : List String
deriving DecidableEq

/-- config.PRODUCTS. -/
def PRODUCTS : List (String × ConfigProduct) :=
  [("jordan_5_retro",
    { sku := "H7980100",
      pname := "Jordan Air Jordan 5 Retro OG - Boys Grade School",
      available_sizes := ["03.5", "04.0", "04.5", "05.0", "05.5", "06.0"] }),
   ("other_product",
    { sku := "S001AS9",
      pname := "Sample Product",
      available_sizes := ["08.0", "09.0", "10.0"] })]

/-- config.SHIPPING_INFO. -/
def SHIPPING_INFO : ShippingInfo :=
  { firstName := "John", lastName := "Doe", address1 := "123 Main Street",
    address2 := "", city := "New York", state := "NY", zipCode := "10001",
    country := "US", phone := "555-123-4567", email := "john.doe@example.com" }

end config

namespace FootlockerCheckout

/-- FootlockerCheckout.initialize_session: one GET of the homepage; True
exactly when the status code is 200, False for any other status; a raised
exception is caught and gives False. -/
def initSession (r : HttpResult Unit) : Bool :=
  match r with
  | .resp status _ => status == 200
  | .fault _ => false

/-- FootlockerCheckout.get_product_details: one GET of the product endpoint;
the parsed body on HTTP 200 (None when response.json() raises), None for any
other status or a raised exception. -/
def get_product_details (r : HttpResult ProductData) : Option ProductData :=
  match r with
  | .resp status body => if status == 200 then body else none
  | .fault _ => none

/-- FootlockerCheckout.add_to_cart: first fetches product details via
get_product_details (one GET); if that gives None, returns False having made
a single exchange; otherwise POSTs to the cart-add endpoint (a second
exchange); on HTTP 200 with a parseable body it stores the body's cartId field
into self.cart_id and returns True; any other status, unparseable body or
raised exception returns False with the state unchanged.  The result carries
(new state, returned Boolean, endpoints hit). -/
def add_to_cart (st : SessionIds) (rProd : HttpResult ProductData)
    (rAdd : HttpResult CartData) : SessionIds × Bool × List Endpoint :=
  match get_product_details rProd with
  | none => (st, false, [Endpoint.productDetails])
  | some _product =>
      match rAdd with
      | .fault _ => (st, false, [Endpoint.productDetails, Endpoint.cartAdd])
      | .resp status body =>
          if status == 200 then
            match body with
            | some cart =>
                ({ st with cart_id := cart.cartId }, true,
                 [Endpoint.productDetails, Endpoint.cartAdd])
            | none => (st, false, [Endpoint.productDetails, Endpoint.cartAdd])
          else (st, false, [Endpoint.productDetails, Endpoint.cartAdd])

/-- FootlockerCheckout.get_updated_cart: one GET; on HTTP 200 with a
parseable body it assigns self.cart_id = cart_data.get("cartId") — an
unconditional overwrite, also when the field is null or absent — and returns
the body; otherwise returns None with the state unchanged. -/
def get_updated_cart (st : SessionIds) (r : HttpResult CartData) :
    SessionIds × Option CartData :=
  match r with
  | .fault _ => (st, none)
  | .resp status body =>
      if status == 200 then
        match body with
        | some cart => ({ st with cart_id := cart.cartId }, some cart)
        | none => (st, none)
      else (st, none)

/-- FootlockerCheckout.checkout_as_guest: first calls get_updated_cart (one
GET, possibly updating cart_id); if that gives None, returns False; otherwise
GETs the same cart endpoint again and, on HTTP 200 with a parseable body,
assigns self.guest_id = checkout_data.get("user", \x7b\x7d).get("id") and returns
True. -/
def checkout_as_guest (st : SessionIds) (rCart rGuest : HttpResult CartData) :
    SessionIds × Bool × List Endpoint :=
  let res := get_updated_cart st rCart
  match res.2 with
  | none => (res.1, false, [Endpoint.getUpdatedCartEp])
  | some _cart =>
      match rGuest with
      | .fault _ =>
          (res.1, false, [Endpoint.getUpdatedCartEp, Endpoint.getUpdatedCartEp])
      | .resp status body =>
          if status == 200 then
            match body with
            | some checkoutData =>
                ({ res.1 with guest_id := userGetId checkoutData }, true,
                 [Endpoint.getUpdatedCartEp, Endpoint.getUpdatedCartEp])
            | none =>
                (res.1, false,
                 [Endpoint.getUpdatedCartEp, Endpoint.getUpdatedCartEp])
          else (res.1, false, [Endpoint.getUpdatedCartEp, Endpoint.getUpdatedCartEp])

/-- FootlockerCheckout.submit_shipping_info: one POST; True exactly on HTTP
200. -/
def submit_shipping_info (r : HttpResult Unit) : Bool :=
  match r with
  | .resp status _ => status == 200
  | .fault _ => false

/-- FootlockerCheckout.submit_payment_info: one POST; True exactly on HTTP
200. -/
def submit_payment_info (r : HttpResult Unit) : Bool :=
  match r with
  | .resp status _ => status == 200
  | .fault _ => false

/-- FootlockerCheckout.place_order: one POST whose payload carries
self.cart_id and self.guest_id; the parsed body on HTTP 200, None otherwise. -/
def place_order (st : SessionIds) (r : HttpResult OrderData) : Option OrderData :=
  let _payload := (st.cart_id, st.guest_id)
  match r with
  | .resp status body => if status == 200 then body else none
  | .fault _ => none

/-- The six steps of FootlockerCheckout.complete_checkout_flow, in source
order. -/
inductive Stage where
  | initStage
  | addToCartStage
  | guestCheckoutStage
  | submitShippingStage
  | submitPaymentStage
  | placeOrderStage
deriving DecidableEq, Inhabited

/-- The fixed stage order of complete_checkout_flow. -/
def stageList : List Stage :=
  [Stage.initStage, Stage.addToCartStage, Stage.guestCheckoutStage,
   Stage.submitShippingStage, Stage.submitPaymentStage, Stage.placeOrderStage]

/-- The exchange outcomes one complete_checkout_flow run observes, one per
network call the flow can make (in call order). -/
structure Env where
  rHome : HttpResult Unit
  rProd : HttpResult ProductData
  rAdd : HttpResult CartData
  rCart : HttpResult CartData
  rGuest : HttpResult CartData
  rShip : HttpResult Unit
  rPay : HttpResult Unit
  rOrder : HttpResult OrderData
deriving DecidableEq

/-- FootlockerCheckout.complete_checkout_flow: runs the six steps in order,
returning False at the first step that fails (the remaining steps are not
invoked), True when place_order returns a confirmation.  The result carries
(final state, returned Boolean, the steps that were invoked, in order). -/
def complete_checkout_flow (st : SessionIds) (env : Env) :
    SessionIds × Bool × List Stage :=
  if initSession env.rHome = false then
    (st, false, [Stage.initStage])
  else
    let a := add_to_cart st env.rProd env.rAdd
    if a.2.1 = false then
      (a.1, false, [Stage.initStage, Stage.addToCartStage])
    else
      let g := checkout_as_guest a.1 env.rCart env.rGuest
      if g.2.1 = false then
        (g.1, false, [Stage.initStage, Stage.addToCartStage, Stage.guestCheckoutStage])
      else if submit_shipping_info env.rShip = false then
        (g.1, false,
         [Stage.initStage, Stage.addToCartStage, Stage.guestCheckoutStage,
          Stage.submitShippingStage])
      else if submit_payment_info env.rPay = false then
        (g.1, false,
         [Stage.initStage, Stage.addToCartStage, Stage.guestCheckoutStage,
          Stage.submitShippingStage, Stage.submitPaymentStage])
      else
        match place_order g.1 env.rOrder with
        | some _ => (g.1, true, stageList)
        | none => (g.1, false, stageList)

/-- The Boolean add_to_cart returns, which depends only on the two exchange
outcomes, not on the object state (projection used by the stage-success
table). -/
def addToCartOk (rProd : HttpResult ProductData) (rAdd : HttpResult CartData) : Bool :=
  (add_to_cart default rProd rAdd).2.1

/-- The Boolean checkout_as_guest returns, which depends only on the two
exchange outcomes. -/
def guestOk (rCart rGuest : HttpResult CartData) : Bool :=
  (checkout_as_guest default rCart rGuest).2.1

/-- The per-stage success flags of one complete_checkout_flow run, in stage
order. -/
def checkoutOks (env : Env) : List Bool :=
  [initSession env.rHome,
   addToCartOk env.rProd env.rAdd,
   guestOk env.rCart env.rGuest,
   submit_shipping_info env.rShip,
   submit_payment_info env.rPay,
   (place_order default env.rOrder).isSome]

end FootlockerCheckout

namespace ImprovedFootlockerCheckout

/-- ImprovedFootlockerCheckout.check_product_availability: one GET; HTTP 200
yields the parsed payload; HTTP 403 takes a dedicated branch that logs an
authentication error and prints the cookie-update instructions, but returns
None exactly as every other non-200 status and every raised exception do. -/
def check_product_availability (r : HttpResult ProductData) : Option ProductData :=
  match r with
  | .fault _ => none
  | .resp status body =>
      if status == 200 then body
      else if status == 403 then none
      else none

/-- ImprovedFootlockerCheckout._get_tracking_headers: returns hard-coded
header values copied from one captured browser session.  The method reads
neither the clock nor any randomness source; the call-context parameters of
the embedding (the time of the call and the random draws that would have been
available to it) are therefore unused and every call returns the same
values. -/
def get_tracking_headers (_timestamp : Nat) (_rand : TrackRand) : ImpTrackingHeaders :=
  { newrelic := "eyJ2IjpbMCwxXSwiZCI6eyJ0eSI6IkJyb3dzZXIiLCJhYyI6IjI2ODQxMjUiLCJhcCI6IjY1NTU1OTQxMSIsImlkIjoiMmVlYzJjZDRhNTAzNzE2NSIsInRyIjoiYWEzNmVmOTQ3NzIxNTZjMTE4YTNlODFlZWQ1ZjljOTUiLCJ0aSI6MTc1MTQxNDAyMzEyNCwidGsiOiIzNjcxMDc3In19",
    traceparent := "00-aa36ef94772156c118a3e81eed5f9c95-2eec2cd4a5037165-01",
    tracestate := "3671077@nr=0-1-2684125-655559411-2eec2cd4a5037165----1751414023124" }

end ImprovedFootlockerCheckout

namespace EnhancedFootlockerCheckout

/-- EnhancedFootlockerCheckout._get_tracking_headers: draws a fresh
32-hex-character trace id, a fresh 16-hex-character span id and fresh
request-id segments on every call, and reads the millisecond clock. -/
def get_tracking_headers (timestamp : Nat) (rand : TrackRand) : TrackingHeaders :=
  { newrelic := { spanId := rand.span_id, traceId := rand.trace_id, ti := timestamp },
    traceparent := "00-" ++ rand.trace_id ++ "-" ++ rand.span_id ++ "-01",
    tracestate := "3671077@nr=0-1-2684125-655559411-" ++ rand.span_id ++ "----" ++ toString timestamp,
    x_fl_request_id := rand.req_a ++ "-56d8-11f0-af56-" ++ rand.req_b }

/-- The list comprehension of check_product_availability: the ids of the
sizes whose stock field (default 0) is positive. -/
def availableSizes (p : ProductData) : List String :=
  (p.sizes.filter fun s => decide (0 < s.stock)).map fun s => s.id

/-- What check_product_availability returns on success: the parsed product
payload with the computed available_sizes list attached under a new key
(which also makes the returned dict non-empty, hence truthy). -/
structure ProductWithAvail where
  product : ProductData
  available_sizes : List String
deriving DecidableEq

/-- EnhancedFootlockerCheckout.check_product_availability: one GET; on HTTP
200 with a parseable body, attaches available_sizes (sizes with positive
stock) to the payload and returns it; it does not fail for a size that is out
of stock; any other status, unparseable body or raised exception gives None. -/
def check_product_availability (r : HttpResult ProductData) : Option ProductWithAvail :=
  match r with
  | .fault _ => none
  | .resp status body =>
      if status == 200 then
        match body with
        | some p => some { product := p, available_sizes := availableSizes p }
        | none => none
      else none

/-- EnhancedFootlockerCheckout.add_to_cart_real: one POST; on HTTP 200 or 201
with a parseable body, stores the body's cartId into self.cart_id and returns
the body; otherwise returns the empty dict (falsy, modeled none) with the
state unchanged. -/
def add_to_cart_real (st : SessionIds) (r : HttpResult CartData) :
    SessionIds × Option CartData :=
  match r with
  | .fault _ => (st, none)
  | .resp status body =>
      if status == 200 || status == 201 then
        match body with
        | some cart => ({ st with cart_id := cart.cartId }, some cart)
        | none => (st, none)
      else (st, none)

/-- EnhancedFootlockerCheckout.get_cart_status: one GET; on HTTP 200 with a
parseable body, assigns self.cart_id = cart_data.get("cartId") and
self.guest_id = cart_data.get("user", \x7b\x7d).get("id") — unconditional
overwrites, also when those fields are null or absent — and returns the body;
otherwise None with the state unchanged. -/
def get_cart_status (st : SessionIds) (r : HttpResult CartData) :
    SessionIds × Option CartData :=
  match r with
  | .fault _ => (st, none)
  | .resp status body =>
      if status == 200 then
        match body with
        | some cart =>
            ({ st with cart_id := cart.cartId, guest_id := userGetId cart }, some cart)
        | none => (st, none)
      else (st, none)

/-- EnhancedFootlockerCheckout.set_shipping_address: one POST whose body is
assembled from the given shipping record (all keys required there); True
exactly on HTTP 200. -/
def set_shipping_address (_info : ShippingInfo) (r : HttpResult Unit) : Bool :=
  match r with
  | .resp status _ => status == 200
  | .fault _ => false

/-- The four steps quick_add_and_checkout drives, in source order. -/
inductive QStage where
  | checkAvailability
  | addToCart
  | getCartStatus
  | setShippingAddr
deriving DecidableEq

/-- The exchange outcomes one quick_add_and_checkout run observes. -/
structure QuickEnv where
  rProd : HttpResult ProductData
  rAdd : HttpResult CartData
  rCart : HttpResult CartData
  rAddr : HttpResult Unit
deriving DecidableEq

/-- EnhancedFootlockerCheckout.quick_add_and_checkout: looks the product key
up in config.PRODUCTS (an unknown key returns False before any network call);
then checks product availability, adds to cart, fetches the cart status and
sets the configured shipping address, returning False at the first step that
fails.  The requested size is threaded into the add-to-cart payload only; the
available_sizes list computed in step 1 is never consulted.  The result
carries (final state, returned Boolean, steps invoked). -/
def quick_add_and_checkout (st : SessionIds) (product_key : String)
    (_size : String) (env : QuickEnv) : SessionIds × Bool × List QStage :=
  match config.PRODUCTS.lookup product_key with
  | none => (st, false, [])
  | some _info =>
      match check_product_availability env.rProd with
      | none => (st, false, [QStage.checkAvailability])
      | some _pd =>
          let ar := add_to_cart_real st env.rAdd
          match ar.2 with
          | none => (ar.1, false, [QStage.checkAvailability, QStage.addToCart])
          | some _cart =>
              let cs := get_cart_status ar.1 env.rCart
              match cs.2 with
              | none =>
                  (cs.1, false,
                   [QStage.checkAvailability, QStage.addToCart, QStage.getCartStatus])
              | some _cd =>
                  if set_shipping_address config.SHIPPING_INFO env.rAddr = false then
                    (cs.1, false,
                     [QStage.checkAvailability, QStage.addToCart,
                      QStage.getCartStatus, QStage.setShippingAddr])
                  else
                    (cs.1, true,
                     [QStage.checkAvailability, QStage.addToCart,
                      QStage.getCartStatus, QStage.setShippingAddr])

end EnhancedFootlockerCheckout

namespace FootlockerOrderPlacer

/-- The region object of a suggested address (isocodeShort). -/
structure AddrRegion where
  isocodeShort : Option String
deriving DecidableEq

/-- The country object of a suggested address (isocode). -/
structure AddrCountry where
  isocode : Option String
deriving DecidableEq

/-- One element of the suggestedAddresses list of a verification response;
the fields set_shipping_address later reads from it. -/
structure Addr where
  line1 : Option String
  line2 : Option String
  town : Option String
  region : Option AddrRegion
  postalCode : Option String
  country : Option AddrCountry
deriving DecidableEq

/-- The fields of a verification response body that the code reads:
verification_result.get("decision") and
verification_result.get("suggestedAddresses", []). -/
structure VerificationResult where
  decision : Option String
  suggestedAddresses : List Addr
deriving DecidableEq

/-- What verify_shipping_address can hand to its caller on success: either
suggested[0] (the candidate corrected address) or the whole parsed
verification_result dict (which has no address fields of its own). -/
inductive VerifyReturn where
  | suggestedAddr (a : Addr)
  | rawResult (v : VerificationResult)
deriving DecidableEq

/-- FootlockerOrderPlacer.submit_user_info: one POST of the contact payload;
True exactly on HTTP 200 (the body is never parsed); a raised exception gives
False. -/
def submit_user_info (_u : UserInfo) (r : HttpResult Unit) : Bool :=
  match r with
  | .resp status _ => status == 200
  | .fault _ => false

/-- FootlockerOrderPlacer.verify_shipping_address: one POST of the address
payload built from the raw input; on HTTP 200 it parses the verification
result and, when the decision is "Accepted" and the suggestedAddresses list
is non-empty, returns its first element (the candidate corrected address);
in every other parsed-200 case — including any decision other than
"Accepted" — it returns the whole verification_result dict, which is truthy;
a non-200 status, unparseable body or raised exception gives None. -/
def verify_shipping_address (_addr : AddressInput)
    (r : HttpResult VerificationResult) : Option VerifyReturn :=
  match r with
  | .fault _ => none
  | .resp status body =>
      if status == 200 then
        match body with
        | some v =>
            if v.decision == some "Accepted" then
              match v.suggestedAddresses with
              | a :: _ => some (VerifyReturn.suggestedAddr a)
              | [] => some (VerifyReturn.rawResult v)
            else some (VerifyReturn.rawResult v)
        | none => none
      else none

/-- FootlockerOrderPlacer.set_shipping_address: one POST whose body is
assembled from the fields of the value verify_shipping_address returned
(plus configured contact data); True exactly on HTTP 200. -/
def set_shipping_address (_verified : VerifyReturn) (r : HttpResult Unit) : Bool :=
  match r with
  | .resp status _ => status == 200
  | .fault _ => false

/-- FootlockerOrderPlacer.get_updated_cart_with_shipping: one GET; the parsed
body on HTTP 200, None otherwise. -/
def get_updated_cart_with_shipping (r : HttpResult CartData) : Option CartData :=
  match r with
  | .resp status body => if status == 200 then body else none
  | .fault _ => none

/-- The paymentMethod payload submit_payment_info assembles (the billing
address sub-dict is threaded through unmodeled). -/
structure PaymentMethodPayload where
  ptype : String
  cardNumber : Option String
  expiryMonth : Option String
  expiryYear : Option String
  cvv : Option String
  nameOnCard : Option String
deriving DecidableEq

/-- The payload dict submit_payment_info builds from payment_info (type
defaults to CREDITCARD). -/
def payment_payload (p : PaymentInfo) : PaymentMethodPayload :=
  { ptype := p.paymentType.getD "CREDITCARD",
    cardNumber := p.cardNumber,
    expiryMonth := p.expiryMonth,
    expiryYear := p.expiryYear,
    cvv := p.cvv,
    nameOnCard := p.nameOnCard }

/-- FootlockerOrderPlacer.submit_payment_info: prepares the payment payload,
but the payment endpoint is an uncaptured placeholder, so no request is sent
and the step returns True unconditionally ("Payment info prepared but not
submitted (test mode)").  The second component lists the endpoints hit: none. -/
def submit_payment_info (p : PaymentInfo) : Bool × List Endpoint :=
  let _payload := payment_payload p
  (true, [])

/-- The fixed dict place_final_order returns. -/
structure OrderResult where
  orderId : String
  status : String
  message : String
deriving DecidableEq

/-- The payload place_final_order builds (never sent). -/
structure OrderPlacePayload where
  cartId : Option String
  termsAccepted : Bool
  marketingOptIn : Bool
deriving DecidableEq

/-- FootlockerOrderPlacer.place_final_order: builds a placeholder payload from
self.cart_id, but the order endpoint is an uncaptured placeholder, so no
request is sent and the fixed mock confirmation dict is returned
unconditionally.  The second component lists the endpoints hit: none. -/
def place_final_order (cart_id : Option String) : Option OrderResult × List Endpoint :=
  let _payload : OrderPlacePayload :=
    { cartId := cart_id, termsAccepted := true, marketingOptIn := false }
  (some { orderId := "TEST-ORDER-12345", status := "TEST_MODE",
          message := "Order placement in test mode" }, [])

/-- The six steps of complete_order_flow, in source order. -/
inductive OrderStage where
  | submitUserInfo
  | verifyAddress
  | setShippingAddr
  | getUpdatedCartStage
  | submitPaymentStage
  | placeFinalOrderStage
deriving DecidableEq, Inhabited

/-- The fixed stage order of complete_order_flow. -/
def orderStageList : List OrderStage :=
  [OrderStage.submitUserInfo, OrderStage.verifyAddress, OrderStage.setShippingAddr,
   OrderStage.getUpdatedCartStage, OrderStage.submitPaymentStage,
   OrderStage.placeFinalOrderStage]

/-- The exchange outcomes one complete_order_flow run observes (steps 5 and 6
perform no exchange). -/
structure OrderEnv where
  rUser : HttpResult Unit
  rVerify : HttpResult VerificationResult
  rSetAddr : HttpResult Unit
  rCart : HttpResult CartData
deriving DecidableEq

/-- What one complete_order_flow run did: its final outcome (the returned
Boolean together with the "Failed at Step k" log that pins the first failing
step), the steps invoked in order, and the argument set_shipping_address was
invoked with (none when it was never invoked). -/
structure OrderRun where
  outcome : OrderOutcome
  trace : List OrderStage
  shipArg : Option VerifyReturn
deriving DecidableEq

/-- FootlockerOrderPlacer.complete_order_flow: runs the six steps in order,
returning False at the first failing step (logging "Failed at Step k") and
invoking no later step; set_shipping_address is always called with the value
verify_shipping_address returned, never with the caller's raw address
input. -/
def complete_order_flow (u : UserInfo) (a : AddressInput) (p : PaymentInfo)
    (env : OrderEnv) : OrderRun :=
  if submit_user_info u env.rUser = false then
    { outcome := OrderOutcome.failedAtStep 1,
      trace := [OrderStage.submitUserInfo], shipArg := none }
  else
    match verify_shipping_address a env.rVerify with
    | none =>
        { outcome := OrderOutcome.failedAtStep 2,
          trace := [OrderStage.submitUserInfo, OrderStage.verifyAddress],
          shipArg := none }
    | some verified =>
        if set_shipping_address verified env.rSetAddr = false then
          { outcome := OrderOutcome.failedAtStep 3,
            trace := [OrderStage.submitUserInfo, OrderStage.verifyAddress,
                      OrderStage.setShippingAddr],
            shipArg := some verified }
        else
          match get_updated_cart_with_shipping env.rCart with
          | none =>
              { outcome := OrderOutcome.failedAtStep 4,
                trace := [OrderStage.submitUserInfo, OrderStage.verifyAddress,
                          OrderStage.setShippingAddr, OrderStage.getUpdatedCartStage],
                shipArg := some verified }
          | some _cart =>
              if (submit_payment_info p).1 = false then
                { outcome := OrderOutcome.failedAtStep 5,
                  trace := [OrderStage.submitUserInfo, OrderStage.verifyAddress,
                            OrderStage.setShippingAddr, OrderStage.getUpdatedCartStage,
                            OrderStage.submitPaymentStage],
                  shipArg := some verified }
              else
                match (place_final_order none).1 with
                | some _order =>
                    { outcome := OrderOutcome.success,
                      trace := orderStageList, shipArg := some verified }
                | none =>
                    { outcome := OrderOutcome.failedAtStep 6,
                      trace := orderStageList, shipArg := some verified }

/-- The per-stage success flags of one complete_order_flow run, in stage
order (the success of step 3 depends on what step 2 returned, mirroring the
data threading of the flow). -/
def orderStageOk (u : UserInfo) (a : AddressInput) (p : PaymentInfo)
    (env : OrderEnv) : OrderStage → Bool
  | .submitUserInfo => submit_user_info u env.rUser
  | .verifyAddress => (verify_shipping_address a env.rVerify).isSome
  | .setShippingAddr =>
      match verify_shipping_address a env.rVerify with
      | some v => set_shipping_address v env.rSetAddr
      | none => false
  | .getUpdatedCartStage => (get_updated_cart_with_shipping env.rCart).isSome
  | .submitPaymentStage => (submit_payment_info p).1
  | .placeFinalOrderStage => ((place_final_order none).1).isSome

end FootlockerOrderPlacer

namespace MockAdyenEncryption

/-- The charset of _generate_mock_encrypted_string (65 characters). -/
def mockChars : List Char :=
  "ABCDEFGHIJKLMNOPQRSTUVWXYZabcdefghijklmnopqrstuvwxyz0123456789+/=".toList

/-- MockAdyenEncryption._generate_mock_encrypted_string: joins len characters,
each drawn from the charset by secrets.choice; the independent draws are
modeled as a stream pick of charset indices, consumed from position start. -/
def generate_mock_encrypted_string (len start : Nat)
    (pick : Nat → Fin mockChars.length) : String :=
  String.mk ((List.range len).map fun i => mockChars.get (pick (start + i)))

/-- The card_data dict handed to mock_encrypt_card_data. -/
structure CardData where
  cardNumber : Option String
  expiryMonth : Option String
  expiryYear : Option String
  cvc : Option String
deriving DecidableEq

/-- The dict mock_encrypt_card_data returns. -/
structure EncryptedCardData where
  encryptedCardNumber : String
  encryptedExpiryMonth : String
  encryptedExpiryYear : String
  encryptedSecurityCode : String
deriving DecidableEq

/-- self.adyen_prefix, set in MockAdyenEncryption.__init__. -/
def adyenTag : String := "adyenjs_0_1_25$"

/-- MockAdyenEncryption.mock_encrypt_card_data: each field is the fixed
prefix (self.adyen_prefix followed by the fixed key header) followed by a
freshly generated mock string of 64 or 32 charset characters; the card_data
argument is never read, so no byte of it reaches or influences the output. -/
def mock_encrypt_card_data (_card : CardData)
    (pick : Nat → Fin mockChars.length) : EncryptedCardData :=
  { encryptedCardNumber :=
      adyenTag ++ "MEEwEAYHKoZIzj0CAQYFK4EEACIDYgAE" ++ generate_mock_encrypted_string 64 0 pick,
    encryptedExpiryMonth :=
      adyenTag ++ "MEEwEAYHKoZIzj0CAQYFK4EEACIDYgAE" ++ generate_mock_encrypted_string 32 64 pick,
    encryptedExpiryYear :=
      adyenTag ++ "MEEwEAYHKoZIzj0CAQYFK4EEACIDYgAE" ++ generate_mock_encrypted_string 32 96 pick,
    encryptedSecurityCode :=
      adyenTag ++ "MEEwEAYHKoZIzj0CAQYFK4EEACIDYgAE" ++ generate_mock_encrypted_string 32 128 pick }

end MockAdyenEncryption

/-- The overwrite get_updated_cart applies to the stored cart id: the cartId
field of a parsed HTTP-200 body — even when that field is null or absent —
and the previous value otherwise. -/
def cartIdUpdate (prev : Option String) (r : HttpResult CartData) : Option String :=
  match r with
  | .resp status (some c) => if status == 200 then c.cartId else prev
  | _ => prev

/-- Applying a sequence of cart-endpoint responses to the session state
through FootlockerCheckout.get_updated_cart. -/
def applyCartResponses (st : SessionIds) (rs : List (HttpResult CartData)) :
    SessionIds :=
  rs.foldl (fun s r => (FootlockerCheckout.get_updated_cart s r).1) st

/-! Helper lemmas shared by the claim theorems. -/

theorem specFailFastRun_success_iff (l : List Bool) (n : Nat) :
    (specFailFastRun l n).1 = OrderOutcome.success ↔ ∀ b ∈ l, b = true := by
  induction l generalizing n with
  | nil => simp [specFailFastRun]
  | cons b t ih => cases b <;> simp [specFailFastRun, ih]

theorem add_to_cart_snd (st st' : SessionIds) (rP : HttpResult ProductData)
    (rA : HttpResult CartData) :
    (FootlockerCheckout.add_to_cart st rP rA).2 =
      (FootlockerCheckout.add_to_cart st' rP rA).2 := by
  unfold FootlockerCheckout.add_to_cart
  rcases FootlockerCheckout.get_product_details rP with _ | p
  · rfl
  · rcases rA with ⟨s, b⟩ | m
    · by_cases hs : (s == 200) = true
      · rcases b with _ | c <;> simp [hs]
      · simp [hs]
    · rfl

theorem get_updated_cart_snd (st st' : SessionIds) (r : HttpResult CartData) :
    (FootlockerCheckout.get_updated_cart st r).2 =
      (FootlockerCheckout.get_updated_cart st' r).2 := by
  unfold FootlockerCheckout.get_updated_cart
  rcases r with ⟨s, b⟩ | m
  · by_cases hs : (s == 200) = true
    · rcases b with _ | c <;> simp [hs]
    · simp [hs]
  · rfl

theorem checkout_as_guest_snd (st st' : SessionIds) (rC rG : HttpResult CartData) :
    (FootlockerCheckout.checkout_as_guest st rC rG).2 =
      (FootlockerCheckout.checkout_as_guest st' rC rG).2 := by
  unfold FootlockerCheckout.checkout_as_guest FootlockerCheckout.get_updated_cart
  rcases rC with ⟨s, b⟩ | m
  · by_cases hs : (s == 200) = true
    · rcases b with _ | c
      · simp [hs]
      · rcases rG with ⟨s2, b2⟩ | m2
        · by_cases hs2 : (s2 == 200) = true
          · rcases b2 with _ | c2 <;> simp [hs, hs2]
          · simp [hs, hs2]
        · simp [hs]
    · simp [hs]
  · simp

theorem place_order_indep (st st' : SessionIds) (r : HttpResult OrderData) :
    FootlockerCheckout.place_order st r = FootlockerCheckout.place_order st' r := rfl

theorem order_flow_spec (u : UserInfo) (a : AddressInput) (p : PaymentInfo)
    (env : FootlockerOrderPlacer.OrderEnv) :
    (FootlockerOrderPlacer.complete_order_flow u a p env).outcome =
        (specFailFastRun (FootlockerOrderPlacer.orderStageList.map
          (FootlockerOrderPlacer.orderStageOk u a p env)) 0).1 ∧
      (FootlockerOrderPlacer.complete_order_flow u a p env).trace =
        FootlockerOrderPlacer.orderStageList.take
          (specFailFastRun (FootlockerOrderPlacer.orderStageList.map
            (FootlockerOrderPlacer.orderStageOk u a p env)) 0).2 := by
  cases h1 : FootlockerOrderPlacer.submit_user_info u env.rUser
  · simp [FootlockerOrderPlacer.complete_order_flow, FootlockerOrderPlacer.orderStageList,
          FootlockerOrderPlacer.orderStageOk, h1, specFailFastRun]
  · rcases h2 : FootlockerOrderPlacer.verify_shipping_address a env.rVerify with _ | v
    · simp [FootlockerOrderPlacer.complete_order_flow, FootlockerOrderPlacer.orderStageList,
            FootlockerOrderPlacer.orderStageOk, h1, h2, specFailFastRun]
    · cases h3 : FootlockerOrderPlacer.set_shipping_address v env.rSetAddr
      · simp [FootlockerOrderPlacer.complete_order_flow, FootlockerOrderPlacer.orderStageList,
              FootlockerOrderPlacer.orderStageOk, h1, h2, h3, specFailFastRun]
      · rcases h4 : FootlockerOrderPlacer.get_updated_cart_with_shipping env.rCart with _ | c
        · simp [FootlockerOrderPlacer.complete_order_flow, FootlockerOrderPlacer.orderStageList,
                FootlockerOrderPlacer.orderStageOk, h1, h2, h3, h4, specFailFastRun]
        · simp [FootlockerOrderPlacer.complete_order_flow, FootlockerOrderPlacer.orderStageList,
                FootlockerOrderPlacer.orderStageOk, h1, h2, h3, h4, specFailFastRun,
                FootlockerOrderPlacer.submit_payment_info, FootlockerOrderPlacer.place_final_order]

theorem checkout_flow_spec (st : SessionIds) (env : FootlockerCheckout.Env) :
    (FootlockerCheckout.complete_checkout_flow st env).2.1 =
        isSuccessOutcome (specFailFastRun (FootlockerCheckout.checkoutOks env) 0).1 ∧
      (FootlockerCheckout.complete_checkout_flow st env).2.2 =
        FootlockerCheckout.stageList.take
          (specFailFastRun (FootlockerCheckout.checkoutOks env) 0).2 := by
  have hA : ∀ stx : SessionIds, (FootlockerCheckout.add_to_cart stx env.rProd env.rAdd).2.1 =
      FootlockerCheckout.addToCartOk env.rProd env.rAdd := fun stx =>
    congrArg Prod.fst (add_to_cart_snd stx default env.rProd env.rAdd)
  have hG : ∀ stx : SessionIds, (FootlockerCheckout.checkout_as_guest stx env.rCart env.rGuest).2.1 =
      FootlockerCheckout.guestOk env.rCart env.rGuest := fun stx =>
    congrArg Prod.fst (checkout_as_guest_snd stx default env.rCart env.rGuest)
  have hP : ∀ stx : SessionIds, FootlockerCheckout.place_order stx env.rOrder =
      FootlockerCheckout.place_order default env.rOrder := fun stx =>
    place_order_indep stx default env.rOrder
  cases h1 : FootlockerCheckout.initSession env.rHome
  · simp [FootlockerCheckout.complete_checkout_flow, FootlockerCheckout.checkoutOks,
          FootlockerCheckout.stageList, isSuccessOutcome, h1, specFailFastRun]
  · cases h2 : FootlockerCheckout.addToCartOk env.rProd env.rAdd
    · simp [FootlockerCheckout.complete_checkout_flow, FootlockerCheckout.checkoutOks,
            FootlockerCheckout.stageList, isSuccessOutcome, h1, h2, hA, specFailFastRun]
    · cases h3 : FootlockerCheckout.guestOk env.rCart env.rGuest
      · simp [FootlockerCheckout.complete_checkout_flow, FootlockerCheckout.checkoutOks,
              FootlockerCheckout.stageList, isSuccessOutcome, h1, h2, h3, hA, hG, specFailFastRun]
      · cases h4 : FootlockerCheckout.submit_shipping_info env.rShip
        · simp [FootlockerCheckout.complete_checkout_flow, FootlockerCheckout.checkoutOks,
                FootlockerCheckout.stageList, isSuccessOutcome, h1, h2, h3, h4, hA, hG,
                specFailFastRun]
        · cases h5 : FootlockerCheckout.submit_payment_info env.rPay
          · simp [FootlockerCheckout.complete_checkout_flow, FootlockerCheckout.checkoutOks,
                  FootlockerCheckout.stageList, isSuccessOutcome, h1, h2, h3, h4, h5, hA, hG,
                  specFailFastRun]
          · rcases h6 : FootlockerCheckout.place_order default env.rOrder with _ | od
            · simp [FootlockerCheckout.complete_checkout_flow, FootlockerCheckout.checkoutOks,
                    FootlockerCheckout.stageList, isSuccessOutcome, h1, h2, h3, h4, h5, h6,
                    hA, hG, hP, specFailFastRun]
            · simp [FootlockerCheckout.complete_checkout_flow, FootlockerCheckout.checkoutOks,
                    FootlockerCheckout.stageList, isSuccessOutcome, h1, h2, h3, h4, h5, h6,
                    hA, hG, hP, specFailFastRun]

theorem initSession_status (r : HttpResult Unit)
    (h : FootlockerCheckout.initSession r = true) : statusOf r = some 200 := by
  rcases r with ⟨s, b⟩ | m
  · have hs : s = 200 := by simpa [FootlockerCheckout.initSession] using h
    simp [statusOf, hs]
  · simp [FootlockerCheckout.initSession] at h

theorem submit_shipping_status (r : HttpResult Unit)
    (h : FootlockerCheckout.submit_shipping_info r = true) : statusOf r = some 200 := by
  rcases r with ⟨s, b⟩ | m
  · have hs : s = 200 := by simpa [FootlockerCheckout.submit_shipping_info] using h
    simp [statusOf, hs]
  · simp [FootlockerCheckout.submit_shipping_info] at h

theorem submit_payment_status (r : HttpResult Unit)
    (h : FootlockerCheckout.submit_payment_info r = true) : statusOf r = some 200 := by
  rcases r with ⟨s, b⟩ | m
  · have hs : s = 200 := by simpa [FootlockerCheckout.submit_payment_info] using h
    simp [statusOf, hs]
  · simp [FootlockerCheckout.submit_payment_info] at h

theorem get_product_details_status (r : HttpResult ProductData)
    (h : (FootlockerCheckout.get_product_details r).isSome = true) :
    statusOf r = some 200 := by
  rcases r with ⟨s, b⟩ | m
  · by_cases hs : (s == 200) = true
    · have : s = 200 := by simpa using hs
      simp [statusOf, this]
    · simp [FootlockerCheckout.get_product_details, hs] at h
  · simp [FootlockerCheckout.get_product_details] at h

theorem add_ok_status (st : SessionIds) (rP : HttpResult ProductData)
    (rA : HttpResult CartData)
    (h : (FootlockerCheckout.add_to_cart st rP rA).2.1 = true) :
    statusOf rP = some 200 ∧ statusOf rA = some 200 := by
  unfold FootlockerCheckout.add_to_cart at h
  rcases hp : FootlockerCheckout.get_product_details rP with _ | pd
  · rw [hp] at h; simp at h
  · rw [hp] at h
    rcases rA with ⟨s, b⟩ | m
    · by_cases hs : (s == 200) = true
      · have hs2 : s = 200 := by simpa using hs
        exact ⟨get_product_details_status rP (by simp [hp]), by simp [statusOf, hs2]⟩
      · simp [hs] at h
    · simp at h

theorem get_updated_cart_status (st : SessionIds) (r : HttpResult CartData)
    (h : ((FootlockerCheckout.get_updated_cart st r).2).isSome = true) :
    statusOf r = some 200 := by
  unfold FootlockerCheckout.get_updated_cart at h
  rcases r with ⟨s, b⟩ | m
  · by_cases hs : (s == 200) = true
    · have : s = 200 := by simpa using hs
      simp [statusOf, this]
    · simp [hs] at h
  · simp at h

theorem guest_ok_status (st : SessionIds) (rC rG : HttpResult CartData)
    (h : (FootlockerCheckout.checkout_as_guest st rC rG).2.1 = true) :
    statusOf rC = some 200 ∧ statusOf rG = some 200 := by
  unfold FootlockerCheckout.checkout_as_guest at h
  rcases hc : (FootlockerCheckout.get_updated_cart st rC).2 with _ | c
  · simp only [hc] at h; simp at h
  · simp only [hc] at h
    refine ⟨get_updated_cart_status st rC (by simp [hc]), ?_⟩
    rcases rG with ⟨s, b⟩ | m
    · by_cases hs : (s == 200) = true
      · have : s = 200 := by simpa using hs
        simp [statusOf, this]
      · simp [hs] at h
    · simp at h

theorem place_order_status (st : SessionIds) (r : HttpResult OrderData)
    (h : (FootlockerCheckout.place_order st r).isSome = true) :
    statusOf r = some 200 := by
  unfold FootlockerCheckout.place_order at h
  rcases r with ⟨s, b⟩ | m
  · by_cases hs : (s == 200) = true
    · have : s = 200 := by simpa using hs
      simp [statusOf, this]
    · simp [hs] at h
  · simp at h

theorem checkout_flow_true_statuses (st : SessionIds) (env : FootlockerCheckout.Env)
    (h : (FootlockerCheckout.complete_checkout_flow st env).2.1 = true) :
    statusOf env.rHome = some 200 ∧ statusOf env.rProd = some 200 ∧
      statusOf env.rAdd = some 200 ∧ statusOf env.rCart = some 200 ∧
      statusOf env.rGuest = some 200 ∧ statusOf env.rShip = some 200 ∧
      statusOf env.rPay = some 200 ∧ statusOf env.rOrder = some 200 := by
  unfold FootlockerCheckout.complete_checkout_flow at h
  by_cases h1 : FootlockerCheckout.initSession env.rHome = false
  · simp [h1] at h
  · simp only [h1, if_false] at h
    by_cases h2 : (FootlockerCheckout.add_to_cart st env.rProd env.rAdd).2.1 = false
    · simp [h2] at h
    · simp only [h2, if_false] at h
      rw [Bool.not_eq_false] at h2
      by_cases h3 : (FootlockerCheckout.checkout_as_guest
          (FootlockerCheckout.add_to_cart st env.rProd env.rAdd).1 env.rCart env.rGuest).2.1 = false
      · simp [h3] at h
      · simp only [h3, if_false] at h
        rw [Bool.not_eq_false] at h3
        by_cases h4 : FootlockerCheckout.submit_shipping_info env.rShip = false
        · simp [h4] at h
        · simp only [h4, if_false] at h
          by_cases h5 : FootlockerCheckout.submit_payment_info env.rPay = false
          · simp [h5] at h
          · simp only [h5, if_false] at h
            rw [Bool.not_eq_false] at h1 h4 h5
            rcases h6 : FootlockerCheckout.place_order
                (FootlockerCheckout.checkout_as_guest
                  (FootlockerCheckout.add_to_cart st env.rProd env.rAdd).1
                  env.rCart env.rGuest).1 env.rOrder with _ | od
            · simp only [h6] at h; simp at h
            · have hadd := add_ok_status st env.rProd env.rAdd h2
              have hguest := guest_ok_status _ env.rCart env.rGuest h3
              exact ⟨initSession_status _ h1, hadd.1, hadd.2, hguest.1, hguest.2,
                submit_shipping_status _ h4, submit_payment_status _ h5,
                place_order_status (FootlockerCheckout.checkout_as_guest
                    (FootlockerCheckout.add_to_cart st env.rProd env.rAdd).1
                    env.rCart env.rGuest).1 env.rOrder (by simp [h6])⟩

theorem order_flow_shipArg (u : UserInfo) (a : AddressInput) (p : PaymentInfo)
    (env : FootlockerOrderPlacer.OrderEnv) :
    (FootlockerOrderPlacer.complete_order_flow u a p env).shipArg =
      if FootlockerOrderPlacer.submit_user_info u env.rUser = false then none
      else FootlockerOrderPlacer.verify_shipping_address a env.rVerify := by
  by_cases h1 : FootlockerOrderPlacer.submit_user_info u env.rUser = false
  · simp [FootlockerOrderPlacer.complete_order_flow, h1]
  · rcases h2 : FootlockerOrderPlacer.verify_shipping_address a env.rVerify with _ | v
    · simp [FootlockerOrderPlacer.complete_order_flow, h1, h2]
    · by_cases h3 : FootlockerOrderPlacer.set_shipping_address v env.rSetAddr = false
      · simp [FootlockerOrderPlacer.complete_order_flow, h1, h2, h3]
      · rcases h4 : FootlockerOrderPlacer.get_updated_cart_with_shipping env.rCart with _ | c
        · simp [FootlockerOrderPlacer.complete_order_flow, h1, h2, h3, h4]
        · simp [FootlockerOrderPlacer.complete_order_flow, h1, h2, h3, h4,
                FootlockerOrderPlacer.submit_payment_info,
                FootlockerOrderPlacer.place_final_order]

theorem adyen_fixed_header :
    MockAdyenEncryption.adyenTag ++ "MEEwEAYHKoZIzj0CAQYFK4EEACIDYgAE" =
      "adyenjs_0_1_25$MEEwEAYHKoZIzj0CAQYFK4EEACIDYgAE" := by decide

theorem generate_chars_mem (len start : Nat)
    (pick : Nat → Fin MockAdyenEncryption.mockChars.length) :
    ∀ ch ∈ (MockAdyenEncryption.generate_mock_encrypted_string len start pick).data,
      ch ∈ MockAdyenEncryption.mockChars := by
  intro ch hch
  have hdata : (MockAdyenEncryption.generate_mock_encrypted_string len start pick).data =
      (List.range len).map fun i => MockAdyenEncryption.mockChars.get (pick (start + i)) := rfl
  rw [hdata] at hch
  simp only [List.mem_map] at hch
  obtain ⟨i, _, rfl⟩ := hch
  exact MockAdyenEncryption.mockChars.get_mem _ _

theorem cart_id_after_update (st : SessionIds) (r : HttpResult CartData) :
    ((FootlockerCheckout.get_updated_cart st r).1).cart_id = cartIdUpdate st.cart_id r := by
  unfold FootlockerCheckout.get_updated_cart cartIdUpdate
  rcases r with ⟨s, b⟩ | m
  · by_cases hs : (s == 200) = true
    · rcases b with _ | c <;> simp [hs]
    · rcases b with _ | c <;> simp [hs]
  · rfl

theorem guest_id_after_update (st : SessionIds) (r : HttpResult CartData) :
    ((FootlockerCheckout.get_updated_cart st r).1).guest_id = st.guest_id := by
  unfold FootlockerCheckout.get_updated_cart
  rcases r with ⟨s, b⟩ | m
  · by_cases hs : (s == 200) = true
    · rcases b with _ | c <;> simp [hs]
    · rcases b with _ | c <;> simp [hs]
  · rfl

theorem applyCartResponses_cart_id (rs : List (HttpResult CartData)) (st : SessionIds) :
    (applyCartResponses st rs).cart_id = rs.foldl cartIdUpdate st.cart_id := by
  induction rs generalizing st with
  | nil => rfl
  | cons r rest ih =>
      have hstep : applyCartResponses st (r :: rest) =
          applyCartResponses (FootlockerCheckout.get_updated_cart st r).1 rest := rfl
      rw [hstep, ih, List.foldl_cons, cart_id_after_update]

/-- C3: the claim states that once cartId (or guestId) is set to a non-null
value, a later response whose field is null or absent leaves the stored
identifier unchanged.  The code does the opposite: every parsed HTTP-200 cart
response overwrites the stored identifiers unconditionally with the response
field, so a null/absent field erases a previously known identifier.  This
counterexample applies one HTTP-200 response with no cartId (and no user) to
a state that already holds cart_id "CART-1" (and, for get_cart_status,
guest_id "GUEST-1"): both stored identifiers become None. -/
theorem c3_counterexample :
    ((FootlockerCheckout.get_updated_cart { cart_id := some "CART-1", guest_id := none }
        (HttpResult.resp 200 (some { cartId := none, user := none }))).1).cart_id = none ∧
      (EnhancedFootlockerCheckout.get_cart_status
          { cart_id := some "CART-1", guest_id := some "GUEST-1" }
          (HttpResult.resp 200 (some { cartId := none, user := none }))).1 =
        { cart_id := none, guest_id := none } := ⟨rfl, rfl⟩

/-- C3 (amended): after any stage the stored cart_id equals the cartId field
of the LAST successfully parsed HTTP-200 cart response observed so far —
including a null/absent field, which erases a previously known identifier
(last-write-wins, not monotonic replacement); responses with other statuses,
unparseable bodies or transport faults leave the identifier unchanged, and
get_updated_cart never touches guest_id.  get_cart_status overwrites both
cart_id and guest_id with the (possibly null) response fields. -/
theorem c3_thm :
    (∀ (st : SessionIds) (r : HttpResult CartData),
      ((FootlockerCheckout.get_updated_cart st r).1).cart_id = cartIdUpdate st.cart_id r) ∧
    (∀ (st : SessionIds) (r : HttpResult CartData),
      ((FootlockerCheckout.get_updated_cart st r).1).guest_id = st.guest_id) ∧
    (∀ (st : SessionIds) (rs : List (HttpResult CartData)),
      (applyCartResponses st rs).cart_id = rs.foldl cartIdUpdate st.cart_id) ∧
    (∀ (st : SessionIds) (c : CartData),
      (EnhancedFootlockerCheckout.get_cart_status st (HttpResult.resp 200 (some c))).1 =
        { cart_id := c.cartId, guest_id := userGetId c }) :=
  ⟨cart_id_after_update, guest_id_after_update,
   fun st rs => applyCartResponses_cart_id rs st, fun _ _ => rfl⟩

/-- C3 witness: evaluating the amended per-step rule at a concrete non-200
response, which leaves the stored identifier untouched. -/
theorem c3_witness :
    ((FootlockerCheckout.get_updated_cart { cart_id := some "CART-A", guest_id := none }
        (HttpResult.resp 500 none)).1).cart_id = some "CART-A" :=
  (c3_thm.1 { cart_id := some "CART-A", guest_id := none }
    (HttpResult.resp 500 none)).trans (by decide)

/-- C4: the orchestrator invokes stage n+1 only if stage n returned Success;
on the first Failure it transitions directly to the Aborted terminal state
carrying that first failure, invoking no subsequent stage executor; and it
never reorders, skips, or parallelizes stages.  Formalized as: each
orchestrating flow (complete_order_flow of order_placer.py and
complete_checkout_flow of footlocker_checkout.py) is extensionally equal to
the spec's fail-fast transition rule specFailFastRun applied to the per-stage
success flags in the fixed source stage order: the outcome is Completed
exactly when every stage succeeded, otherwise it carries the index of the
first failing stage, and the invoked trace is exactly the prefix of the fixed
stage list ending at the first failure — hence no reordering, no skipping,
and nothing runs past the first failure (the embedding is a sequential
function of the per-stage exchanges, matching the strictly sequential
source). -/
theorem c4_thm :
    (∀ (u : UserInfo) (a : AddressInput) (p : PaymentInfo)
        (env : FootlockerOrderPlacer.OrderEnv),
      (FootlockerOrderPlacer.complete_order_flow u a p env).outcome =
          (specFailFastRun (FootlockerOrderPlacer.orderStageList.map
            (FootlockerOrderPlacer.orderStageOk u a p env)) 0).1 ∧
        (FootlockerOrderPlacer.complete_order_flow u a p env).trace =
          FootlockerOrderPlacer.orderStageList.take
            (specFailFastRun (FootlockerOrderPlacer.orderStageList.map
              (FootlockerOrderPlacer.orderStageOk u a p env)) 0).2) ∧
    (∀ (st : SessionIds) (env : FootlockerCheckout.Env),
      (FootlockerCheckout.complete_checkout_flow st env).2.1 =
          isSuccessOutcome (specFailFastRun (FootlockerCheckout.checkoutOks env) 0).1 ∧
        (FootlockerCheckout.complete_checkout_flow st env).2.2 =
          FootlockerCheckout.stageList.take
            (specFailFastRun (FootlockerCheckout.checkoutOks env) 0).2) :=
  ⟨order_flow_spec, checkout_flow_spec⟩

/-- C4 witness: the fail-fast rule evaluated on a concrete run whose first
step fails — the flow aborts at step 1 having invoked only that step. -/
theorem c4_witness :
    (FootlockerOrderPlacer.complete_order_flow default default default
        { rUser := HttpResult.fault "Connection reset",
          rVerify := HttpResult.resp 200 none,
          rSetAddr := HttpResult.resp 200 none,
          rCart := HttpResult.resp 404 none }).outcome = OrderOutcome.failedAtStep 1 :=
  ((c4_thm.1 default default default
    { rUser := HttpResult.fault "Connection reset",
      rVerify := HttpResult.resp 200 none,
      rSetAddr := HttpResult.resp 200 none,
      rCart := HttpResult.resp 404 none }).1).trans (by decide)

/-- C6: the claim states that executors never propagate exceptions (true) and
that network-level faults are returned as Failure(TransportError) with no
HTTP status.  The executors return a bare False/None on every failure path,
so a transport fault produces a value identical to the one produced by a
non-2xx HTTP response: no TransportError kind exists in the returned value.
Concretely, submit_user_info on a raised timeout returns the same False as on
an HTTP 500 response, and initialize_session behaves the same way. -/
theorem c6_counterexample :
    FootlockerOrderPlacer.submit_user_info default (HttpResult.fault "Connection timed out") =
        FootlockerOrderPlacer.submit_user_info default (HttpResult.resp 500 none) ∧
      FootlockerOrderPlacer.submit_user_info default (HttpResult.fault "Connection timed out") =
        false ∧
      FootlockerCheckout.initSession (HttpResult.fault "Read timed out") =
        FootlockerCheckout.initSession (HttpResult.resp 503 none) := ⟨rfl, rfl, rfl⟩

/-- C6 (amended): every executor returns its ordinary result value rather
than propagating an exception past its boundary — a transport fault (timeout,
connection reset, or a malformed body where the executor parses one) is
caught and mapped to the executor's failure value — but that value is the
same undifferentiated False returned for every non-2xx HTTP status: the
executor succeeds exactly on HTTP 200, and no TransportError kind or status
is attached to the failure (the distinction lives only in the log). -/
theorem c6_thm :
    (∀ (u : UserInfo) (m : String),
      FootlockerOrderPlacer.submit_user_info u (HttpResult.fault m) = false) ∧
    (∀ (u : UserInfo) (r : HttpResult Unit),
      FootlockerOrderPlacer.submit_user_info u r = true ↔ statusOf r = some 200) ∧
    (∀ m : String, FootlockerCheckout.initSession (HttpResult.fault m) = false) ∧
    (∀ r : HttpResult Unit,
      FootlockerCheckout.initSession r = true ↔ statusOf r = some 200) := by
  refine ⟨fun u m => rfl, fun u r => ?_, fun m => rfl, fun r => ?_⟩ <;>
    rcases r with ⟨s, b⟩ | m <;>
      simp [FootlockerOrderPlacer.submit_user_info, FootlockerCheckout.initSession, statusOf]

/-- C6 witness: the success characterization evaluated at a concrete HTTP-200
exchange. -/
theorem c6_witness :
    statusOf (HttpResult.resp 200 (some ()) : HttpResult Unit) = some 200 :=
  (c6_thm.2.1 default (HttpResult.resp 200 (some ()))).mp rfl

/-- C8: the claim states every step executor performs exactly one network
exchange per invocation.  FootlockerCheckout.add_to_cart performs two (the
embedded product-details GET, then the cart-add POST) whenever the product
fetch succeeds, and FootlockerOrderPlacer.submit_payment_info performs zero
(the payment endpoint is an uncaptured placeholder and nothing is sent). -/
theorem c8_counterexample :
    ((FootlockerCheckout.add_to_cart { cart_id := none, guest_id := none }
          (HttpResult.resp 200 (some { name := some "Jordan 5 Retro", sizes := [] }))
          (HttpResult.resp 200 (some { cartId := some "CART-1", user := none }))).2.2).length =
        2 ∧
      ((FootlockerOrderPlacer.submit_payment_info default).2).length = 0 := ⟨rfl, rfl⟩

/-- C8 (amended): add_to_cart hits the product-details endpoint and then,
only when that fetch succeeds, the cart-add endpoint — so it performs two
exchanges on the success path and one otherwise; submit_payment_info and
place_final_order perform no exchange at all (placeholders). -/
theorem c8_thm :
    (∀ (st : SessionIds) (rP : HttpResult ProductData) (rA : HttpResult CartData),
      (FootlockerCheckout.add_to_cart st rP rA).2.2 =
        match FootlockerCheckout.get_product_details rP with
        | none => [Endpoint.productDetails]
        | some _ => [Endpoint.productDetails, Endpoint.cartAdd]) ∧
    (∀ p : PaymentInfo, (FootlockerOrderPlacer.submit_payment_info p).2 = []) ∧
    (∀ cid : Option String, (FootlockerOrderPlacer.place_final_order cid).2 = []) := by
  refine ⟨fun st rP rA => ?_, fun p => rfl, fun cid => rfl⟩
  unfold FootlockerCheckout.add_to_cart
  rcases hp : FootlockerCheckout.get_product_details rP with _ | pd
  · rfl
  · rcases rA with ⟨s, b⟩ | m
    · by_cases hs : (s == 200) = true
      · rcases b with _ | c <;> simp [hs]
      · simp [hs]
    · rfl

/-- C8 witness: the exchange count evaluated at a concrete invocation whose
product fetch fails — a single exchange. -/
theorem c8_witness :
    (FootlockerCheckout.add_to_cart { cart_id := none, guest_id := none }
        (HttpResult.fault "Connection reset") (HttpResult.resp 200 none)).2.2 =
      [Endpoint.productDetails] :=
  (c8_thm.1 { cart_id := none, guest_id := none }
    (HttpResult.fault "Connection reset") (HttpResult.resp 200 none)).trans (by decide)

/-- C9: submit_payment_info returns True for every payment_info without
performing any network exchange; place_final_order returns the fixed dict
with orderId "TEST-ORDER-12345" without performing any exchange; the whole
order flow is invariant in the payment data; and every complete_order_flow
run whose first four steps succeed reports overall success regardless of the
payment data supplied. -/
theorem c9_thm :
    (∀ p : PaymentInfo, FootlockerOrderPlacer.submit_payment_info p = (true, [])) ∧
    (∀ cid : Option String,
      FootlockerOrderPlacer.place_final_order cid =
        (some { orderId := "TEST-ORDER-12345", status := "TEST_MODE",
                message := "Order placement in test mode" }, [])) ∧
    (∀ (u : UserInfo) (a : AddressInput) (p₁ p₂ : PaymentInfo)
        (env : FootlockerOrderPlacer.OrderEnv),
      FootlockerOrderPlacer.complete_order_flow u a p₁ env =
        FootlockerOrderPlacer.complete_order_flow u a p₂ env) ∧
    (∀ (u : UserInfo) (a : AddressInput) (p : PaymentInfo)
        (env : FootlockerOrderPlacer.OrderEnv),
      FootlockerOrderPlacer.submit_user_info u env.rUser = true →
      (FootlockerOrderPlacer.verify_shipping_address a env.rVerify).isSome = true →
      FootlockerOrderPlacer.orderStageOk u a p env
          FootlockerOrderPlacer.OrderStage.setShippingAddr = true →
      (FootlockerOrderPlacer.get_updated_cart_with_shipping env.rCart).isSome = true →
      (FootlockerOrderPlacer.complete_order_flow u a p env).outcome =
        OrderOutcome.success) := by
  refine ⟨fun p => rfl, fun cid => rfl, fun u a p₁ p₂ env => rfl, ?_⟩
  intro u a p env h1 h2 h3 h4
  rw [(order_flow_spec u a p env).1]
  refine (specFailFastRun_success_iff _ 0).mpr ?_
  intro b hb
  simp only [FootlockerOrderPlacer.orderStageList, List.map_cons, List.map_nil,
             List.mem_cons, List.not_mem_nil, or_false] at hb
  rcases hb with rfl | rfl | rfl | rfl | rfl | rfl
  · simpa [FootlockerOrderPlacer.orderStageOk] using h1
  · simpa [FootlockerOrderPlacer.orderStageOk] using h2
  · exact h3
  · simpa [FootlockerOrderPlacer.orderStageOk] using h4
  · simp [FootlockerOrderPlacer.orderStageOk, FootlockerOrderPlacer.submit_payment_info]
  · simp [FootlockerOrderPlacer.orderStageOk, FootlockerOrderPlacer.place_final_order]

/-- C9 witness: a concrete run whose first four steps succeed ends in overall
success. -/
theorem c9_witness :
    (FootlockerOrderPlacer.complete_order_flow default default default
        { rUser := HttpResult.resp 200 (some ()),
          rVerify := HttpResult.resp 200
            (some { decision := some "Accepted", suggestedAddresses := [] }),
          rSetAddr := HttpResult.resp 200 (some ()),
          rCart := HttpResult.resp 200
            (some { cartId := some "CART-1", user := none }) }).outcome =
      OrderOutcome.success :=
  c9_thm.2.2.2 default default default
    { rUser := HttpResult.resp 200 (some ()),
      rVerify := HttpResult.resp 200
        (some { decision := some "Accepted", suggestedAddresses := [] }),
      rSetAddr := HttpResult.resp 200 (some ()),
      rCart := HttpResult.resp 200
        (some { cartId := some "CART-1", user := none }) }
    (by decide) (by decide) (by decide) (by decide)

/-- C10: mock_encrypt_card_data is independent of the card fields — the same
randomness yields identical output for any two card inputs — and each of the
four encrypted fields is the fixed prefix
adyenjs_0_1_25$MEEwEAYHKoZIzj0CAQYFK4EEACIDYgAE followed by a string whose
characters all come from the 65-character mock charset (the randomness
source), so no byte of the card number, expiry, or security code appears in
or influences the returned payload. -/
theorem c10_thm :
    (∀ (c₁ c₂ : MockAdyenEncryption.CardData)
        (pick : Nat → Fin MockAdyenEncryption.mockChars.length),
      MockAdyenEncryption.mock_encrypt_card_data c₁ pick =
        MockAdyenEncryption.mock_encrypt_card_data c₂ pick) ∧
    (∀ (c : MockAdyenEncryption.CardData)
        (pick : Nat → Fin MockAdyenEncryption.mockChars.length),
      ∃ s₁ s₂ s₃ s₄ : String,
        (MockAdyenEncryption.mock_encrypt_card_data c pick).encryptedCardNumber =
            "adyenjs_0_1_25$MEEwEAYHKoZIzj0CAQYFK4EEACIDYgAE" ++ s₁ ∧
          (MockAdyenEncryption.mock_encrypt_card_data c pick).encryptedExpiryMonth =
            "adyenjs_0_1_25$MEEwEAYHKoZIzj0CAQYFK4EEACIDYgAE" ++ s₂ ∧
          (MockAdyenEncryption.mock_encrypt_card_data c pick).encryptedExpiryYear =
            "adyenjs_0_1_25$MEEwEAYHKoZIzj0CAQYFK4EEACIDYgAE" ++ s₃ ∧
          (MockAdyenEncryption.mock_encrypt_card_data c pick).encryptedSecurityCode =
            "adyenjs_0_1_25$MEEwEAYHKoZIzj0CAQYFK4EEACIDYgAE" ++ s₄ ∧
          (∀ ch ∈ s₁.data, ch ∈ MockAdyenEncryption.mockChars) ∧
          (∀ ch ∈ s₂.data, ch ∈ MockAdyenEncryption.mockChars) ∧
          (∀ ch ∈ s₃.data, ch ∈ MockAdyenEncryption.mockChars) ∧
          (∀ ch ∈ s₄.data, ch ∈ MockAdyenEncryption.mockChars)) := by
  refine ⟨fun c₁ c₂ pick => rfl, fun c pick => ?_⟩
  refine ⟨MockAdyenEncryption.generate_mock_encrypted_string 64 0 pick,
    MockAdyenEncryption.generate_mock_encrypted_string 32 64 pick,
    MockAdyenEncryption.generate_mock_encrypted_string 32 96 pick,
    MockAdyenEncryption.generate_mock_encrypted_string 32 128 pick,
    ?_, ?_, ?_, ?_,
    generate_chars_mem 64 0 pick, generate_chars_mem 32 64 pick,
    generate_chars_mem 32 96 pick, generate_chars_mem 32 128 pick⟩ <;>
    · show MockAdyenEncryption.adyenTag ++ "MEEwEAYHKoZIzj0CAQYFK4EEACIDYgAE" ++ _ = _
      rw [← adyen_fixed_header]

/-- C10 witness: the card-independence conjunct evaluated at two concrete,
different card inputs and one concrete randomness stream. -/
theorem c10_witness :
    MockAdyenEncryption.mock_encrypt_card_data
        { cardNumber := some "4111111111111111", expiryMonth := some "12",
          expiryYear := some "2025", cvc := some "737" }
        (fun _ => ⟨0, by decide⟩) =
      MockAdyenEncryption.mock_encrypt_card_data
        { cardNumber := none, expiryMonth := none, expiryYear := none, cvc := none }
        (fun _ => ⟨0, by decide⟩) :=
  c10_thm.1 _ _ _

/-- C1: the claim states that a 403 at any stage makes the run end Aborted
with failure kind AuthExpired, distinguished from all other failure kinds.
The code carries no failure kind: a run whose add-to-cart exchange returns
HTTP 403 produces exactly the same final result (the same Boolean, the same
trace, the same state) as a run whose add-to-cart exchange returns HTTP 500,
and ImprovedFootlockerCheckout.check_product_availability returns the same
None for 403 (after printing cookie instructions) as for 500 — so no
AuthExpired discrimination exists in any outcome. -/
theorem c1_counterexample :
    FootlockerCheckout.complete_checkout_flow { cart_id := none, guest_id := none }
        { rHome := HttpResult.resp 200 (some ()),
          rProd := HttpResult.resp 200 (some { name := some "Jordan 5 Retro", sizes := [] }),
          rAdd := HttpResult.resp 403 none,
          rCart := HttpResult.resp 200 (some { cartId := some "CART-1", user := none }),
          rGuest := HttpResult.resp 200 (some { cartId := some "CART-1", user := none }),
          rShip := HttpResult.resp 200 (some ()),
          rPay := HttpResult.resp 200 (some ()),
          rOrder := HttpResult.resp 200 (some { orderId := some "ORD-1" }) } =
      FootlockerCheckout.complete_checkout_flow { cart_id := none, guest_id := none }
        { rHome := HttpResult.resp 200 (some ()),
          rProd := HttpResult.resp 200 (some { name := some "Jordan 5 Retro", sizes := [] }),
          rAdd := HttpResult.resp 500 none,
          rCart := HttpResult.resp 200 (some { cartId := some "CART-1", user := none }),
          rGuest := HttpResult.resp 200 (some { cartId := some "CART-1", user := none }),
          rShip := HttpResult.resp 200 (some ()),
          rPay := HttpResult.resp 200 (some ()),
          rOrder := HttpResult.resp 200 (some { orderId := some "ORD-1" }) } ∧
      (FootlockerCheckout.complete_checkout_flow { cart_id := none, guest_id := none }
        { rHome := HttpResult.resp 200 (some ()),
          rProd := HttpResult.resp 200 (some { name := some "Jordan 5 Retro", sizes := [] }),
          rAdd := HttpResult.resp 403 none,
          rCart := HttpResult.resp 200 (some { cartId := some "CART-1", user := none }),
          rGuest := HttpResult.resp 200 (some { cartId := some "CART-1", user := none }),
          rShip := HttpResult.resp 200 (some ()),
          rPay := HttpResult.resp 200 (some ()),
          rOrder := HttpResult.resp 200 (some { orderId := some "ORD-1" }) }).2.1 = false ∧
      ImprovedFootlockerCheckout.check_product_availability (HttpResult.resp 403 none) =
        ImprovedFootlockerCheckout.check_product_availability (HttpResult.resp 500 none) :=
  ⟨rfl, rfl, rfl⟩

/-- C1 (amended): a 403 response at any stage does make the run abort — the
flow reports failure whenever any of its exchanges returns HTTP 403,
regardless of which stage — but the final outcome carries no AuthExpired
kind: it is the same undifferentiated failure produced by any other non-2xx
status (for ImprovedFootlockerCheckout.check_product_availability the 403
branch is distinguished only by a log message and returns the same None). -/
theorem c1_thm :
    (∀ (st : SessionIds) (env : FootlockerCheckout.Env),
      (statusOf env.rHome = some 403 ∨ statusOf env.rProd = some 403 ∨
       statusOf env.rAdd = some 403 ∨ statusOf env.rCart = some 403 ∨
       statusOf env.rGuest = some 403 ∨ statusOf env.rShip = some 403 ∨
       statusOf env.rPay = some 403 ∨ statusOf env.rOrder = some 403) →
      (FootlockerCheckout.complete_checkout_flow st env).2.1 = false) ∧
    (∀ body : Option ProductData,
      ImprovedFootlockerCheckout.check_product_availability (HttpResult.resp 403 body) =
        none) := by
  constructor
  · intro st env h403
    cases hb : (FootlockerCheckout.complete_checkout_flow st env).2.1
    · rfl
    · exfalso
      have hst := checkout_flow_true_statuses st env hb
      rcases h403 with h | h | h | h | h | h | h | h
      · rw [hst.1] at h; simp at h
      · rw [hst.2.1] at h; simp at h
      · rw [hst.2.2.1] at h; simp at h
      · rw [hst.2.2.2.1] at h; simp at h
      · rw [hst.2.2.2.2.1] at h; simp at h
      · rw [hst.2.2.2.2.2.1] at h; simp at h
      · rw [hst.2.2.2.2.2.2.1] at h; simp at h
      · rw [hst.2.2.2.2.2.2.2] at h; simp at h
  · intro body; rfl

/-- C1 witness: a run whose add-to-cart exchange returns 403 aborts. -/
theorem c1_witness :
    (FootlockerCheckout.complete_checkout_flow { cart_id := none, guest_id := none }
        { rHome := HttpResult.resp 200 (some ()),
          rProd := HttpResult.resp 200 (some { name := some "Sample Product", sizes := [] }),
          rAdd := HttpResult.resp 403 none,
          rCart := HttpResult.resp 200 none,
          rGuest := HttpResult.resp 200 none,
          rShip := HttpResult.resp 200 none,
          rPay := HttpResult.resp 200 none,
          rOrder := HttpResult.resp 200 none }).2.1 = false :=
  c1_thm.1 { cart_id := none, guest_id := none }
    { rHome := HttpResult.resp 200 (some ()),
      rProd := HttpResult.resp 200 (some { name := some "Sample Product", sizes := [] }),
      rAdd := HttpResult.resp 403 none,
      rCart := HttpResult.resp 200 none,
      rGuest := HttpResult.resp 200 none,
      rShip := HttpResult.resp 200 none,
      rPay := HttpResult.resp 200 none,
      rOrder := HttpResult.resp 200 none }
    (Or.inr (Or.inr (Or.inl rfl)))

/-- C2: the claim states that when the availability payload reports zero
stock for the requested size the run aborts with OutOfStock and AddToCart is
never invoked.  The code never consults the requested size's stock: with a
product payload whose only size entry is the requested size "04.5" at stock
0, quick_add_and_checkout still invokes the add-to-cart step and the whole
run even succeeds (availableSizes of that payload is empty, confirming zero
stock for the requested size). -/
theorem c2_counterexample :
    (EnhancedFootlockerCheckout.quick_add_and_checkout { cart_id := none, guest_id := none }
        "jordan_5_retro" "04.5"
        { rProd := HttpResult.resp 200
            (some { name := some "Jordan 5 Retro", sizes := [{ id := "04.5", stock := 0 }] }),
          rAdd := HttpResult.resp 200 (some { cartId := some "CART-1", user := none }),
          rCart := HttpResult.resp 200
            (some { cartId := some "CART-1", user := some { id := some "GUEST-1" } }),
          rAddr := HttpResult.resp 200 (some ()) }).2 =
      (true, [EnhancedFootlockerCheckout.QStage.checkAvailability,
              EnhancedFootlockerCheckout.QStage.addToCart,
              EnhancedFootlockerCheckout.QStage.getCartStatus,
              EnhancedFootlockerCheckout.QStage.setShippingAddr]) ∧
      EnhancedFootlockerCheckout.availableSizes
          { name := some "Jordan 5 Retro", sizes := [{ id := "04.5", stock := 0 }] } =
        [] := ⟨by decide, by decide⟩

/-- C2 (amended): check_product_availability computes available_sizes (the
ids of the sizes with positive stock) and attaches it to the returned
payload, but zero stock for the requested size does not abort the run and is
not a distinct failure: the whole quick flow is invariant in the requested
size, and whenever the product key is known and the availability step returns
a payload, the add-to-cart step is invoked regardless of that payload's
stock. -/
theorem c2_thm :
    (∀ p : ProductData,
      EnhancedFootlockerCheckout.check_product_availability (HttpResult.resp 200 (some p)) =
        some { product := p,
               available_sizes := EnhancedFootlockerCheckout.availableSizes p }) ∧
    (∀ (st : SessionIds) (key s₁ s₂ : String) (env : EnhancedFootlockerCheckout.QuickEnv),
      EnhancedFootlockerCheckout.quick_add_and_checkout st key s₁ env =
        EnhancedFootlockerCheckout.quick_add_and_checkout st key s₂ env) ∧
    (∀ (st : SessionIds) (key size : String) (env : EnhancedFootlockerCheckout.QuickEnv)
        (info : config.ConfigProduct) (pd : EnhancedFootlockerCheckout.ProductWithAvail),
      config.PRODUCTS.lookup key = some info →
      EnhancedFootlockerCheckout.check_product_availability env.rProd = some pd →
      EnhancedFootlockerCheckout.QStage.addToCart ∈
        (EnhancedFootlockerCheckout.quick_add_and_checkout st key size env).2.2) := by
  refine ⟨fun p => rfl, fun st key s₁ s₂ env => rfl, ?_⟩
  intro st key size env info pd hl hc
  unfold EnhancedFootlockerCheckout.quick_add_and_checkout
  rw [hl, hc]
  rcases har : (EnhancedFootlockerCheckout.add_to_cart_real st env.rAdd).2 with _ | c
  · simp [har]
  · rcases hcs : (EnhancedFootlockerCheckout.get_cart_status
        (EnhancedFootlockerCheckout.add_to_cart_real st env.rAdd).1 env.rCart).2 with _ | cd
    · simp [har, hcs]
    · by_cases hss : EnhancedFootlockerCheckout.set_shipping_address
          config.SHIPPING_INFO env.rAddr = false <;> simp [har, hcs, hss]

/-- C2 witness: with a known product key and a parsed availability payload,
the add-to-cart step is invoked. -/
theorem c2_witness :
    EnhancedFootlockerCheckout.QStage.addToCart ∈
      (EnhancedFootlockerCheckout.quick_add_and_checkout { cart_id := none, guest_id := none }
        "other_product" "08.0"
        { rProd := HttpResult.resp 200 (some { name := some "Sample Product", sizes := [] }),
          rAdd := HttpResult.resp 200 (some { cartId := some "CART-2", user := none }),
          rCart := HttpResult.resp 200 (some { cartId := some "CART-2", user := none }),
          rAddr := HttpResult.resp 200 (some ()) }).2.2 :=
  c2_thm.2.2 { cart_id := none, guest_id := none } "other_product" "08.0"
    { rProd := HttpResult.resp 200 (some { name := some "Sample Product", sizes := [] }),
      rAdd := HttpResult.resp 200 (some { cartId := some "CART-2", user := none }),
      rCart := HttpResult.resp 200 (some { cartId := some "CART-2", user := none }),
      rAddr := HttpResult.resp 200 (some ()) }
    { sku := "S001AS9", pname := "Sample Product",
      available_sizes := ["08.0", "09.0", "10.0"] }
    { product := { name := some "Sample Product", sizes := [] }, available_sizes := [] }
    (by decide) (by decide)

/-- C5: the claim states that a verification decision other than "accepted"
makes the run fail with AddressRejected and prevents SetShippingAddress from
being invoked.  The code falls through: on an HTTP-200 verification response
whose decision is "Rejected", verify_shipping_address returns the (truthy)
verification dict, the flow invokes set_shipping_address with it, and this
concrete run even completes successfully. -/
theorem c5_counterexample :
    (FootlockerOrderPlacer.complete_order_flow default default default
        { rUser := HttpResult.resp 200 (some ()),
          rVerify := HttpResult.resp 200
            (some { decision := some "Rejected", suggestedAddresses := [] }),
          rSetAddr := HttpResult.resp 200 (some ()),
          rCart := HttpResult.resp 200
            (some { cartId := some "CART-7", user := none }) }).outcome =
      OrderOutcome.success ∧
      FootlockerOrderPlacer.OrderStage.setShippingAddr ∈
        (FootlockerOrderPlacer.complete_order_flow default default default
          { rUser := HttpResult.resp 200 (some ()),
            rVerify := HttpResult.resp 200
              (some { decision := some "Rejected", suggestedAddresses := [] }),
            rSetAddr := HttpResult.resp 200 (some ()),
            rCart := HttpResult.resp 200
              (some { cartId := some "CART-7", user := none }) }).trace ∧
      (FootlockerOrderPlacer.complete_order_flow default default default
          { rUser := HttpResult.resp 200 (some ()),
            rVerify := HttpResult.resp 200
              (some { decision := some "Rejected", suggestedAddresses := [] }),
            rSetAddr := HttpResult.resp 200 (some ()),
            rCart := HttpResult.resp 200
              (some { cartId := some "CART-7", user := none }) }).shipArg =
        some (FootlockerOrderPlacer.VerifyReturn.rawResult
          { decision := some "Rejected", suggestedAddresses := [] }) :=
  ⟨by decide, by decide, by decide⟩

/-- C5 (amended): set_shipping_address is always invoked with exactly the
value verify_shipping_address returned — the first suggested (corrected)
address when the decision is "Accepted" and suggestions exist — and never
with the caller's raw input address; when verification yields None (a non-200
status, unparseable body, or transport fault) the run aborts before
set_shipping_address is ever invoked.  However a non-"Accepted" decision on a
parsed HTTP-200 response does NOT fail the run: the whole verification result
is returned (truthy) and set_shipping_address is still invoked with it. -/
theorem c5_thm :
    (∀ (a : AddressInput) (v : FootlockerOrderPlacer.VerificationResult)
        (x : FootlockerOrderPlacer.Addr) (xs : List FootlockerOrderPlacer.Addr),
      v.decision = some "Accepted" → v.suggestedAddresses = x :: xs →
      FootlockerOrderPlacer.verify_shipping_address a (HttpResult.resp 200 (some v)) =
        some (FootlockerOrderPlacer.VerifyReturn.suggestedAddr x)) ∧
    (∀ (a : AddressInput) (v : FootlockerOrderPlacer.VerificationResult),
      v.decision ≠ some "Accepted" →
      FootlockerOrderPlacer.verify_shipping_address a (HttpResult.resp 200 (some v)) =
        some (FootlockerOrderPlacer.VerifyReturn.rawResult v)) ∧
    (∀ (u : UserInfo) (a : AddressInput) (p : PaymentInfo)
        (env : FootlockerOrderPlacer.OrderEnv) (x : FootlockerOrderPlacer.VerifyReturn),
      (FootlockerOrderPlacer.complete_order_flow u a p env).shipArg = some x →
      FootlockerOrderPlacer.verify_shipping_address a env.rVerify = some x) ∧
    (∀ (u : UserInfo) (a : AddressInput) (p : PaymentInfo)
        (env : FootlockerOrderPlacer.OrderEnv),
      FootlockerOrderPlacer.verify_shipping_address a env.rVerify = none →
      (FootlockerOrderPlacer.complete_order_flow u a p env).shipArg = none ∧
        (FootlockerOrderPlacer.complete_order_flow u a p env).outcome ≠
          OrderOutcome.success) := by
  refine ⟨?_, ?_, ?_, ?_⟩
  · intro a v x xs hd hsugg
    simp [FootlockerOrderPlacer.verify_shipping_address, hd, hsugg]
  · intro a v hd
    simp [FootlockerOrderPlacer.verify_shipping_address, hd]
  · intro u a p env x hx
    rw [order_flow_shipArg] at hx
    by_cases h1 : FootlockerOrderPlacer.submit_user_info u env.rUser = false
    · simp [h1] at hx
    · simpa [h1] using hx
  · intro u a p env hv
    constructor
    · rw [order_flow_shipArg, hv]
      simp
    · intro hsucc
      have hall := (specFailFastRun_success_iff
          (FootlockerOrderPlacer.orderStageList.map
            (FootlockerOrderPlacer.orderStageOk u a p env)) 0).mp
        (by rw [← (order_flow_spec u a p env).1]; exact hsucc)
      have h2ok := hall (FootlockerOrderPlacer.orderStageOk u a p env
          FootlockerOrderPlacer.OrderStage.verifyAddress)
        (List.mem_map_of_mem _ (by simp [FootlockerOrderPlacer.orderStageList]))
      simp [FootlockerOrderPlacer.orderStageOk, hv] at h2ok

/-- C5 witness: an "Accepted" decision with a suggestion makes verification
return that first suggested corrected address. -/
theorem c5_witness :
    FootlockerOrderPlacer.verify_shipping_address default
        (HttpResult.resp 200 (some
          { decision := some "Accepted",
            suggestedAddresses :=
              [{ line1 := some "1 Morris Rd", line2 := some "",
                 town := some "South Hill", region := some { isocodeShort := some "VA" },
                 postalCode := some "23970-5627",
                 country := some { isocode := some "US" } }] })) =
      some (FootlockerOrderPlacer.VerifyReturn.suggestedAddr
        { line1 := some "1 Morris Rd", line2 := some "",
          town := some "South Hill", region := some { isocodeShort := some "VA" },
          postalCode := some "23970-5627",
          country := some { isocode := some "US" } }) :=
  c5_thm.1 default
    { decision := some "Accepted",
      suggestedAddresses :=
        [{ line1 := some "1 Morris Rd", line2 := some "",
           town := some "South Hill", region := some { isocodeShort := some "VA" },
           postalCode := some "23970-5627",
           country := some { isocode := some "US" } }] }
    { line1 := some "1 Morris Rd", line2 := some "",
      town := some "South Hill", region := some { isocodeShort := some "VA" },
      postalCode := some "23970-5627", country := some { isocode := some "US" } }
    [] rfl rfl

/-- C7: the claim states that no tracking-header value is reused across two
distinct calls.  ImprovedFootlockerCheckout._get_tracking_headers returns
hard-coded constants: two calls made at different times with entirely
different random draws available to them produce identical newrelic,
traceparent and tracestate values — the same captured trace id, span id and
timestamp every time. -/
theorem c7_counterexample :
    ImprovedFootlockerCheckout.get_tracking_headers 1751414023124
        { trace_id := "aaaaaaaaaaaaaaaaaaaaaaaaaaaaaaaa", span_id := "aaaaaaaaaaaaaaaa",
          req_a := "aaaaaaaa", req_b := "aaaaaaaaaaaa" } =
      ImprovedFootlockerCheckout.get_tracking_headers 1751414023125
        { trace_id := "bbbbbbbbbbbbbbbbbbbbbbbbbbbbbbbb", span_id := "bbbbbbbbbbbbbbbb",
          req_a := "bbbbbbbb", req_b := "bbbbbbbbbbbb" } := rfl

/-- C7 (amended): generation cannot fail (the synthesizers are total
functions of the call context) and no part of the tracking context is stored
in the session state (SessionIds holds only cart_id and guest_id and no
executor writes header material into it).
EnhancedFootlockerCheckout._get_tracking_headers is genuinely fresh per call:
the traceparent embeds the per-call random trace and span ids, and two calls
can produce equal header sets only if their clock reading and their random
draws coincided — so fresh draws yield fresh values.  But
ImprovedFootlockerCheckout._get_tracking_headers returns fixed constants, so
its header values are reused across every pair of calls. -/
theorem c7_thm :
    (∀ (t : Nat) (r : TrackRand),
      (EnhancedFootlockerCheckout.get_tracking_headers t r).traceparent =
        "00-" ++ r.trace_id ++ "-" ++ r.span_id ++ "-01") ∧
    (∀ (t₁ : Nat) (r₁ : TrackRand) (t₂ : Nat) (r₂ : TrackRand),
      EnhancedFootlockerCheckout.get_tracking_headers t₁ r₁ =
        EnhancedFootlockerCheckout.get_tracking_headers t₂ r₂ →
      r₁.trace_id = r₂.trace_id ∧ r₁.span_id = r₂.span_id ∧ t₁ = t₂) ∧
    (∀ (t₁ : Nat) (r₁ : TrackRand) (t₂ : Nat) (r₂ : TrackRand),
      ImprovedFootlockerCheckout.get_tracking_headers t₁ r₁ =
        ImprovedFootlockerCheckout.get_tracking_headers t₂ r₂) := by
  refine ⟨fun t r => rfl, ?_, fun t₁ r₁ t₂ r₂ => rfl⟩
  intro t₁ r₁ t₂ r₂ h
  exact ⟨congrArg (fun x => x.newrelic.traceId) h,
    congrArg (fun x => x.newrelic.spanId) h,
    congrArg (fun x => x.newrelic.ti) h⟩

/-- C7 witness: the freshness conjunct applied to two identical concrete
calls. -/
theorem c7_witness :
    ("cc" : String) = "cc" ∧ ("dd" : String) = "dd" ∧ (7 : Nat) = 7 :=
  c7_thm.2.1 7 { trace_id := "cc", span_id := "dd", req_a := "ee", req_b := "ff" }
    7 { trace_id := "cc", span_id := "dd", req_a := "ee", req_b := "ff" } rfl
